import Mathlib

/-!
Verification development for the SmartTrack attendance tracker
(Node.js + better-sqlite3 + Express, repository `smartTrack-AI`).

The relational store (src/db.js) and the request handlers of the attendance
core are shallowly embedded as pure Lean functions over an explicit database
state.  The repository ships two generations of the server:

* the current `src/server.js`, and
* an older, fuller variant (src/unnamed/part_001, duplicated with small
  additions in src/unnamed/part_002), here called the *legacy* handler set.

Where the two generations implement the same route differently, both are
embedded, with `Current` in the name for src/server.js and `Legacy`, or no
marker, for the part_001/part_002 code.

Conventions of the embedding:

* SQLite tables are Lean lists in rowid (insertion) order; AUTOINCREMENT ids
  are `next…Id` counters carried in the state.
* A JS value that may be `undefined`/missing is an `Option`; the JS falsiness
  test `!x` on a string field is `falsy` below (`none` or the empty string).
* `better-sqlite3`'s `stmt.get(...)` = `List.find?` (first matching row);
  `stmt.all(...)` = `List.filter`/`filterMap`; SQL `ORDER BY` is modelled by
  `List.insertionSort` with the corresponding key relation (SQLite leaves the
  order of key-equal rows unspecified; insertion sort fixes one such order).
* SQL TEXT comparison (BINARY collation) is Lean's lexicographic `String`
  order; ISO date strings compare identically in both.
* Numbers computed by the metrics route are modelled in `ℚ`; the values the
  claims mention (0, 75, 100) are exact in both JS doubles and `ℚ`.
-/

namespace SmartTrack

/-- Row of the `students` table (src/db.js lines 24–34). -/
structure Student where
  id : Nat
  name : String
  roll_number : String
  /-- the `section` column; `section` is a Lean keyword, hence `sect`. -/
  sect : String
  email : Option String := none
  photo_url : Option String := none
  face_token : Option String := none
  usn : Option String := none
  semester : Option Int := none
deriving DecidableEq

/-- Row of the `sessions` table (src/db.js lines 14–22). -/
structure Session where
  id : Nat
  teacher_name : String
  subject : String
  /-- the `section` column. -/
  sect : String
  date : String
  created_at : String
  teacher_user_id : Nat
deriving DecidableEq

/-- Row of the `attendance` table (src/db.js lines 36–44). -/
structure AttendanceRow where
  id : Nat
  session_id : Nat
  student_id : Nat
  status : String
  marked_at : String
deriving DecidableEq

/-- Row of the `users` table (src/db.js lines 47–54), the fields the embedded
routes touch. -/
structure UserRow where
  id : Nat
  email : String
  role : String
  roll_number : Option String := none
deriving DecidableEq

/-- The store state: the four tables relevant to the attendance core, plus
the AUTOINCREMENT counters. -/
structure DB where
  students : List Student := []
  sessions : List Session := []
  attendance : List AttendanceRow := []
  users : List UserRow := []
  nextStudentId : Nat := 1
  nextSessionId : Nat := 1
  nextAttendanceId : Nat := 1
deriving DecidableEq

/-- The trusted identity the auth middleware hands a route
(`req.user` decoded from the JWT: `{ id, role, roll_number }`). -/
structure AuthUser where
  id : Nat
  role : String
  roll_number : Option String := none
deriving DecidableEq

/-- Outcome of a JSON route, by HTTP status class:
400 / 403 / 404 / 200-with-payload / 500. -/
inductive ApiResult (α : Type) where
  | badRequest
  | forbidden
  | notFound
  | ok (a : α)
  | serverError
deriving DecidableEq

/-- JS falsiness of a possibly-missing string field: `!x` is true exactly for
`undefined`/`null` and the empty string. -/
def falsy : Option String → Bool
  | none => true
  | some s => s == ""

/-- One element of the submitted `students` array of POST /api/attendance:
`{ name?, rollNumber?, status? }`, every field possibly missing. -/
structure Entry where
  name : Option String := none
  rollNumber : Option String := none
  status : Option String := none
deriving DecidableEq

/-- The legacy loop-body guard (src/unnamed/part_001 line 280):
`if (!s.name || !s.rollNumber || !s.status) return;` — an entry is processed
iff none of the three fields is falsy. -/
def entryValid (e : Entry) : Bool :=
  !falsy e.name && !falsy e.rollNumber && !falsy e.status

/-- `findStudent` prepared statement
(src/unnamed/part_001 lines 265–269, src/server.js line 458):
`SELECT id FROM students WHERE roll_number = ? AND section = ?` via `.get`,
i.e. the first matching row. -/
def findStudent (db : DB) (roll sec : String) : Option Student :=
  db.students.find? (fun s => s.roll_number == roll && s.sect == sec)

/-- The student resolver (spec §4.1), as implemented inside the legacy
transaction loop (src/unnamed/part_001 lines 284–293): look up by
`(roll_number, section)`; if absent, insert one row with the given name and
keys (all other columns NULL) and use its new id. Returns the resolved id and
the possibly-extended state. -/
def resolveStudent (db : DB) (roll sec nm : String) : Nat × DB :=
  match findStudent db roll sec with
  | some st => (st.id, db)
  | none =>
    (db.nextStudentId,
     { db with
        students := db.students ++
          [{ id := db.nextStudentId, name := nm, roll_number := roll, sect := sec }],
        nextStudentId := db.nextStudentId + 1 })

/-- `insertSession.run(teacherName, subject, section, date, now, req.user.id)`
(src/unnamed/part_001 lines 242–256, src/server.js lines 452–455): one INSERT
into `sessions`, returning `lastInsertRowid` and the new state. -/
def insertSessionRow (db : DB) (tn sb sec dt now : String) (uid : Nat) : Nat × DB :=
  (db.nextSessionId,
   { db with
      sessions := db.sessions ++
        [{ id := db.nextSessionId, teacher_name := tn, subject := sb, sect := sec,
           date := dt, created_at := now, teacher_user_id := uid }],
      nextSessionId := db.nextSessionId + 1 })

/-- Body of the legacy transaction loop for one entry
(src/unnamed/part_001 lines 279–295): skip if any of name/rollNumber/status is
falsy; otherwise resolve the student with the *session's* section and insert
one attendance row carrying the session id, the resolved student id, the
entry's status, and the shared timestamp. -/
def recordEntry (sid : Nat) (sec now : String) (db : DB) (e : Entry) : DB :=
  if entryValid e then
    let p := resolveStudent db (e.rollNumber.getD "") sec (e.name.getD "")
    { p.2 with
        attendance := p.2.attendance ++
          [{ id := p.2.nextAttendanceId, session_id := sid, student_id := p.1,
             status := e.status.getD "", marked_at := now }],
        nextAttendanceId := p.2.nextAttendanceId + 1 }
  else db

/-- Legacy POST /api/attendance (src/unnamed/part_001 lines 226–305; the
part_002 copy at lines 631–719 is identical up to the resolver's explicit NULL
columns): validate the session-level fields, insert the session row, then run
the per-entry loop over `students`; respond `{ok:true, sessionId}`.
`students = none` models a body whose `students` is not an array. -/
def record (db : DB) (uid : Nat) (tn sb sec dt : Option String)
    (students : Option (List Entry)) (now : String) : ApiResult Nat × DB :=
  if falsy tn || falsy sb || falsy sec || falsy dt || students.isNone then
    (.badRequest, db)
  else
    let p := insertSessionRow db (tn.getD "") (sb.getD "") (sec.getD "") (dt.getD "") now uid
    (.ok p.1, (students.getD []).foldl (recordEntry p.1 (sec.getD "") now) p.2)

/-- Legacy POST /api/attendance when the store faults inside the
`db.transaction` callback (src/unnamed/part_001 lines 278–298): better-sqlite3
rolls back every write made inside the transaction (resolver inserts and
attendance inserts), the route's catch answers 500 — but the session INSERT of
line 248 ran *before* `transaction()` in autocommit mode and stays committed.
The visible state after the fault is therefore the initial state plus the
session row alone.  (src/server.js lines 452–466 has the same shape: the
session insert precedes the transaction.)  Fields are the post-validation
string values. -/
def recordWithFault (db : DB) (uid : Nat) (tn sb sec dt now : String) :
    ApiResult Nat × DB :=
  (.serverError, (insertSessionRow db tn sb sec dt now uid).2)

/-- One element of the `students` array as consumed by the current handler
(src/server.js lines 460–464), which reads only `rollNumber` and `status`. -/
structure CEntry where
  rollNumber : String
  status : String
deriving DecidableEq

/-- Current POST /api/attendance (src/server.js lines 448–471): *no*
validation of the session-level fields; the session row is inserted
unconditionally; for each entry the student is only looked up (never created)
and an attendance row is inserted only when the lookup succeeds. -/
def recordCurrent (db : DB) (uid : Nat) (tn sb sec dt : String)
    (students : List CEntry) (now : String) : ApiResult Nat × DB :=
  let p := insertSessionRow db tn sb sec dt now uid
  (.ok p.1,
   students.foldl
     (fun d s =>
       match findStudent d s.rollNumber sec with
       | some st =>
         { d with
            attendance := d.attendance ++
              [{ id := d.nextAttendanceId, session_id := p.1, student_id := st.id,
                 status := s.status, marked_at := now }],
            nextAttendanceId := d.nextAttendanceId + 1 }
       | none => d)
     p.2)

/-- Payload of the current metrics route
(src/server.js lines 403–412); every field is derived from the percentage. -/
structure Metrics where
  overall_percentage : ℚ
  last_7_days_score : ℚ
  risk_subject_count : Nat
deriving DecidableEq

/-- Current GET /api/student/attendance/metrics (src/server.js lines
391–416): look the student up by roll number alone (`LIMIT`-free `.get`, first
match), 404 when absent, then count the student's attendance rows and those
with status 'present' or 'late'; percentage is `attended/total*100`, `0` when
`total` is `0`.  NOTE: the handler performs no role or ownership check — the
`user` argument is taken (it passed `requireAuth`) but never consulted. -/
def metricsCurrent (db : DB) (_user : AuthUser) (roll : String) : ApiResult Metrics :=
  match db.students.find? (fun s => s.roll_number == roll) with
  | none => .notFound
  | some st =>
    let total := (db.attendance.filter (fun a => a.student_id == st.id)).length
    let attended := (db.attendance.filter
      (fun a => a.student_id == st.id && (a.status == "present" || a.status == "late"))).length
    let pct : ℚ := if total > 0 then ((attended : ℚ) / (total : ℚ)) * 100 else 0
    .ok { overall_percentage := pct, last_7_days_score := pct,
          risk_subject_count := if pct < 75 then 1 else 0 }

/-- Current GET /api/student/profile (src/server.js lines 339–370): look up by
roll number alone (first match), 404 when absent, *then* the student-scoping
check (`req.user.role === "student" && req.user.roll_number !== roll` → 403),
else the student row. -/
def profileCurrent (db : DB) (u : AuthUser) (roll : String) : ApiResult Student :=
  match db.students.find? (fun s => s.roll_number == roll) with
  | none => .notFound
  | some st =>
    if u.role == "student" && u.roll_number != some roll then .forbidden
    else .ok st

/-- One row of the history query's result set
(src/unnamed/part_001 lines 536–542). -/
structure HistEntry where
  session_id : Nat
  date : String
  subject : String
  sect : String
  status : String
  marked_at : String
  /-- `sessions.created_at`: not in the SELECT list, but ORDER BY reads it,
  so the joined row carries it here as the secondary sort key. -/
  created_at : String
deriving DecidableEq

/-- The history JOIN (src/unnamed/part_001 lines 533–549):
`FROM attendance JOIN sessions ON sessions.id = attendance.session_id WHERE
attendance.student_id = ?` — one result row per attendance row of the student
whose session exists (session ids are unique in a well-formed store, so
`find?` is the join partner). Ordering is applied separately. -/
def historyRows (db : DB) (stuId : Nat) : List HistEntry :=
  db.attendance.filterMap (fun a =>
    if a.student_id == stuId then
      (db.sessions.find? (fun s => s.id == a.session_id)).map (fun s =>
        { session_id := s.id, date := s.date, subject := s.subject, sect := s.sect,
          status := a.status, marked_at := a.marked_at, created_at := s.created_at })
    else none)

/-- `ORDER BY sessions.date ASC, sessions.created_at ASC` as a relation on
result rows. -/
def histKeyLE (a b : HistEntry) : Prop :=
  a.date < b.date ∨ (a.date = b.date ∧ a.created_at ≤ b.created_at)

instance : DecidableRel histKeyLE := fun a b =>
  inferInstanceAs (Decidable (a.date < b.date ∨ (a.date = b.date ∧ a.created_at ≤ b.created_at)))

instance : IsTotal HistEntry histKeyLE where
  total a b := by
    unfold histKeyLE
    rcases lt_trichotomy a.date b.date with h | h | h
    · exact Or.inl (Or.inl h)
    · rcases le_total a.created_at b.created_at with h' | h'
      · exact Or.inl (Or.inr ⟨h, h'⟩)
      · exact Or.inr (Or.inr ⟨h.symm, h'⟩)
    · exact Or.inr (Or.inl h)

instance : IsTrans HistEntry histKeyLE where
  trans a b c hab hbc := by
    unfold histKeyLE at hab hbc ⊢
    rcases hab with hab | ⟨hab, hab'⟩
    · rcases hbc with hbc | ⟨hbc, _⟩
      · exact Or.inl (hab.trans hbc)
      · exact Or.inl (hbc ▸ hab)
    · rcases hbc with hbc | ⟨hbc, hbc'⟩
      · exact Or.inl (hab ▸ hbc)
      · exact Or.inr ⟨hab.trans hbc, hab'.trans hbc'⟩

/-- Legacy GET /api/students/:roll/history (src/unnamed/part_001 lines
505–559; part_002 lines 1029–1082 identical): look the student up by roll
number alone (first match), 404 when absent, then the student-scoping check
(403), then the student row plus the JOIN ordered by session date then session
creation time. -/
def historyLegacy (db : DB) (u : AuthUser) (roll : String) :
    ApiResult (Student × List HistEntry) :=
  match db.students.find? (fun s => s.roll_number == roll) with
  | none => .notFound
  | some st =>
    if u.role == "student" && u.roll_number != some roll then .forbidden
    else .ok (st, List.insertionSort histKeyLE (historyRows db st.id))

/-- One row of the legacy session-detail result set
(src/unnamed/part_001 lines 357–362). -/
structure DetailRow where
  name : String
  roll_number : String
  sect : String
  status : String
  marked_at : String
deriving DecidableEq

/-- The detail JOIN (src/unnamed/part_001 lines 354–369):
`FROM attendance JOIN students ON students.id = attendance.student_id WHERE
attendance.session_id = ?` (student ids unique in a well-formed store).
Ordering is applied separately. -/
def detailRows (db : DB) (sid : Nat) : List DetailRow :=
  db.attendance.filterMap (fun a =>
    if a.session_id == sid then
      (db.students.find? (fun st => st.id == a.student_id)).map (fun st =>
        { name := st.name, roll_number := st.roll_number, sect := st.sect,
          status := a.status, marked_at := a.marked_at })
    else none)

/-- `ORDER BY students.roll_number ASC` as a relation on detail rows. -/
def rollLE (a b : DetailRow) : Prop :=
  a.roll_number ≤ b.roll_number

instance : DecidableRel rollLE := fun a b =>
  inferInstanceAs (Decidable (a.roll_number ≤ b.roll_number))

instance : IsTotal DetailRow rollLE where
  total a b := by unfold rollLE; exact le_total a.roll_number b.roll_number

instance : IsTrans DetailRow rollLE where
  trans a b c hab hbc := by
    unfold rollLE at hab hbc ⊢
    exact le_trans hab hbc

/-- Legacy GET /api/sessions/:id (src/unnamed/part_001 lines 329–380): 404
when no session with the id exists; otherwise the session plus the JOIN
ordered by roll number ascending. -/
def sessionDetailLegacy (db : DB) (sid : Nat) : ApiResult (Session × List DetailRow) :=
  match db.sessions.find? (fun s => s.id == sid) with
  | none => .notFound
  | some s => .ok (s, List.insertionSort rollLE (detailRows db sid))

/-- One row of the current detail result set (src/server.js line 481 selects
only name, roll_number, status). -/
structure CDetailRow where
  name : String
  roll_number : String
  status : String
deriving DecidableEq

/-- Current GET /api/sessions/:id (src/server.js lines 478–487): no existence
guard and no ORDER BY — the handler always answers 200 with
`{session, records}`, the session part being absent (`undefined`) when the id
does not exist, and the records in join (attendance) order. -/
def sessionDetailCurrent (db : DB) (sid : Nat) : Option Session × List CDetailRow :=
  (db.sessions.find? (fun s => s.id == sid),
   db.attendance.filterMap (fun a =>
     if a.session_id == sid then
       (db.students.find? (fun st => st.id == a.student_id)).map (fun st =>
         { name := st.name, roll_number := st.roll_number, status := a.status })
     else none))

/-- A DELETE on `sessions` under the schema of src/db.js lines 36–44 with
`PRAGMA foreign_keys = ON`: `ON DELETE CASCADE` removes every attendance row
referencing the deleted session. -/
def deleteSessionRow (db : DB) (sid : Nat) : DB :=
  { db with
      sessions := db.sessions.filter (fun s => !(s.id == sid)),
      attendance := db.attendance.filter (fun a => !(a.session_id == sid)) }

/-- Current DELETE /api/students/:id (src/server.js lines 420–432): read the
student's email; if the student exists, delete the matching student user rows
(`email = ?` matches nothing when the email is NULL); then delete the student
row, which cascades to its attendance rows (src/db.js line 43). -/
def deleteStudentRoute (db : DB) (stid : Nat) : DB :=
  let db1 :=
    match db.students.find? (fun s => s.id == stid) with
    | some st =>
      { db with
          users := db.users.filter (fun u => !(some u.email == st.email && u.role == "student")) }
    | none => db
  { db1 with
      students := db1.students.filter (fun s => !(s.id == stid)),
      attendance := db1.attendance.filter (fun a => !(a.student_id == stid)) }

/-- The state with one student's attendance rows removed — used to state that
a query never reads the removed rows. -/
def removeAttendanceOf (db : DB) (stid : Nat) : DB :=
  { db with attendance := db.attendance.filter (fun a => !(a.student_id == stid)) }

/-- Referential integrity of the `attendance` table: every row references an
existing session and an existing student (the FOREIGN KEY constraints of
src/db.js lines 42–43). -/
def refIntact (db : DB) : Prop :=
  ∀ a ∈ db.attendance,
    (∃ s ∈ db.sessions, s.id = a.session_id) ∧ (∃ st ∈ db.students, st.id = a.student_id)

instance (db : DB) : Decidable (refIntact db) := by
  unfold refIntact; infer_instance

/-! Concrete store states used to evaluate the embedded routes. -/

/-- The empty store, as created by a fresh src/db.js schema run. -/
def db0 : DB := {}

/-- One student with roll "9" in section "A" and one recorded session with one
`present` row for them. -/
def dbC3 : DB :=
  { students := [{ id := 1, name := "Bob", roll_number := "9", sect := "A" }],
    sessions := [{ id := 1, teacher_name := "T", subject := "Math", sect := "A",
                   date := "2024-01-01", created_at := "t0", teacher_user_id := 1 }],
    attendance := [{ id := 1, session_id := 1, student_id := 1, status := "present",
                     marked_at := "t0" }],
    nextStudentId := 2, nextSessionId := 2, nextAttendanceId := 2 }

/-- Student roll "7" with 3 `present` + 1 `absent` rows; student roll "8" with
no attendance rows. -/
def dbC6 : DB :=
  { students := [{ id := 1, name := "Asha", roll_number := "7", sect := "A" },
                 { id := 2, name := "Zoe", roll_number := "8", sect := "A" }],
    sessions := [{ id := 1, teacher_name := "T", subject := "Math", sect := "A",
                   date := "2024-01-01", created_at := "t0", teacher_user_id := 1 }],
    attendance :=
      [{ id := 1, session_id := 1, student_id := 1, status := "present", marked_at := "t0" },
       { id := 2, session_id := 1, student_id := 1, status := "present", marked_at := "t1" },
       { id := 3, session_id := 1, student_id := 1, status := "present", marked_at := "t2" },
       { id := 4, session_id := 1, student_id := 1, status := "absent", marked_at := "t3" }],
    nextStudentId := 3, nextSessionId := 2, nextAttendanceId := 5 }

/-- One session whose two attendance rows belong to students with rolls "2"
and "1", inserted in that (descending) order. -/
def dbC7 : DB :=
  { students := [{ id := 1, name := "Beta", roll_number := "2", sect := "A" },
                 { id := 2, name := "Alpha", roll_number := "1", sect := "A" }],
    sessions := [{ id := 1, teacher_name := "T", subject := "Math", sect := "A",
                   date := "2024-01-01", created_at := "t0", teacher_user_id := 1 }],
    attendance :=
      [{ id := 1, session_id := 1, student_id := 1, status := "present", marked_at := "t0" },
       { id := 2, session_id := 1, student_id := 2, status := "late", marked_at := "t0" }],
    nextStudentId := 3, nextSessionId := 2, nextAttendanceId := 3 }

/-- One student with two sessions: the session dated 2024-01-03 was inserted
*first*, the one dated 2024-01-01 second. -/
def dbC8 : DB :=
  { students := [{ id := 1, name := "S", roll_number := "7", sect := "A" }],
    sessions :=
      [{ id := 1, teacher_name := "T", subject := "Math", sect := "A",
         date := "2024-01-03", created_at := "t1", teacher_user_id := 1 },
       { id := 2, teacher_name := "T", subject := "Math", sect := "A",
         date := "2024-01-01", created_at := "t2", teacher_user_id := 1 }],
    attendance :=
      [{ id := 1, session_id := 1, student_id := 1, status := "present", marked_at := "t1" },
       { id := 2, session_id := 2, student_id := 1, status := "absent", marked_at := "t2" }],
    nextStudentId := 2, nextSessionId := 3, nextAttendanceId := 3 }

/-- One session, one student with a linked user account, one attendance row. -/
def dbC9 : DB :=
  { students := [{ id := 1, name := "S", roll_number := "7", sect := "A",
                   email := some "s7@college.edu" }],
    sessions := [{ id := 1, teacher_name := "T", subject := "Math", sect := "A",
                   date := "2024-01-01", created_at := "t0", teacher_user_id := 1 }],
    attendance := [{ id := 1, session_id := 1, student_id := 1, status := "present",
                     marked_at := "t0" }],
    users := [{ id := 1, email := "s7@college.edu", role := "student", roll_number := some "7" }],
    nextStudentId := 2, nextSessionId := 2, nextAttendanceId := 2 }

/-- Two students sharing roll number "7" in different sections, each with one
attendance row. -/
def dbC10 : DB :=
  { students := [{ id := 1, name := "Ann", roll_number := "7", sect := "A" },
                 { id := 2, name := "Ben", roll_number := "7", sect := "B" }],
    sessions := [{ id := 1, teacher_name := "T", subject := "Math", sect := "A",
                   date := "2024-01-01", created_at := "t0", teacher_user_id := 1 },
                 { id := 2, teacher_name := "T", subject := "Math", sect := "B",
                   date := "2024-01-02", created_at := "t1", teacher_user_id := 1 }],
    attendance :=
      [{ id := 1, session_id := 1, student_id := 1, status := "present", marked_at := "t0" },
       { id := 2, session_id := 2, student_id := 2, status := "absent", marked_at := "t1" }],
    nextStudentId := 3, nextSessionId := 3, nextAttendanceId := 3 }

/-- A caller authenticated as the student with roll number "7". -/
def uStudent7 : AuthUser := { id := 2, role := "student", roll_number := some "7" }

/-- A caller authenticated as a teacher. -/
def uTeacher : AuthUser := { id := 1, role := "teacher" }

/-! Helper lemmas about the embedded operations. -/

/-- Unfolding lemma for the history sort key. -/
theorem histKeyLE_iff (a b : HistEntry) :
    histKeyLE a b ↔ a.date < b.date ∨ (a.date = b.date ∧ a.created_at ≤ b.created_at) :=
  Iff.rfl

/-- The resolver touches only the `students` table and its id counter. -/
theorem resolveStudent_preserves (db : DB) (roll sec nm : String) :
    (resolveStudent db roll sec nm).2.attendance = db.attendance ∧
    (resolveStudent db roll sec nm).2.sessions = db.sessions ∧
    (resolveStudent db roll sec nm).2.nextAttendanceId = db.nextAttendanceId := by
  unfold resolveStudent
  cases findStudent db roll sec <;> simp

/-- Structure of the legacy per-entry loop: it appends one attendance row per
valid entry, each stamped with the given session id and timestamp, and leaves
the `sessions` table untouched. -/
theorem foldl_recordEntry_spec (sid : Nat) (sec now : String) :
    ∀ (es : List Entry) (db : DB), ∃ rows : List AttendanceRow,
      (es.foldl (recordEntry sid sec now) db).attendance = db.attendance ++ rows ∧
      rows.length = es.countP entryValid ∧
      (∀ r ∈ rows, r.session_id = sid ∧ r.marked_at = now) ∧
      (es.foldl (recordEntry sid sec now) db).sessions = db.sessions
  | [], db => ⟨[], by simp⟩
  | e :: es, db => by
    rw [List.foldl_cons]
    by_cases he : entryValid e = true
    · have hpres := resolveStudent_preserves db (e.rollNumber.getD "") sec (e.name.getD "")
      set p := resolveStudent db (e.rollNumber.getD "") sec (e.name.getD "") with hp
      have hstep : recordEntry sid sec now db e =
          { p.2 with
              attendance := p.2.attendance ++
                [{ id := p.2.nextAttendanceId, session_id := sid, student_id := p.1,
                   status := e.status.getD "", marked_at := now }],
              nextAttendanceId := p.2.nextAttendanceId + 1 } := by
        unfold recordEntry
        rw [if_pos he]
      obtain ⟨rows, h1, h2, h3, h4⟩ := foldl_recordEntry_spec sid sec now es
        (recordEntry sid sec now db e)
      refine ⟨{ id := p.2.nextAttendanceId, session_id := sid, student_id := p.1,
                status := e.status.getD "", marked_at := now } :: rows, ?_, ?_, ?_, ?_⟩
      · rw [h1, hstep]
        simp [hpres.1]
      · simp [h2, List.countP_cons, he]
      · intro r hr
        rcases List.mem_cons.mp hr with rfl | hr
        · exact ⟨rfl, rfl⟩
        · exact h3 r hr
      · rw [h4, hstep]
        simp [hpres.2.1]
    · have hstep : recordEntry sid sec now db e = db := by
        unfold recordEntry
        rw [if_neg he]
      obtain ⟨rows, h1, h2, h3, h4⟩ := foldl_recordEntry_spec sid sec now es db
      refine ⟨rows, by rw [hstep]; exact h1, ?_, h3, by rw [hstep]; exact h4⟩
      simp [h2, List.countP_cons, he]

/-! Claim theorems. -/

/-- C1: the attendance-recording operation is NOT atomic as claimed — the
session INSERT runs before `db.transaction()` begins
(src/unnamed/part_001 line 248, src/server.js line 452), so a store fault
during the attendance inserts rolls back only the transaction's writes and
leaves the already-committed session row visible with zero attendance rows:
an orphaned session, which the claim (and spec §4.2 step 3, §8 Atomicity)
says must not exist. -/
theorem C1_fault_leaves_orphan_session (db : DB) (uid : Nat) (tn sb sec dt now : String)
    (hfresh : ∀ a ∈ db.attendance, a.session_id ≠ db.nextSessionId) :
    ∃ s ∈ (recordWithFault db uid tn sb sec dt now).2.sessions,
      s.id = db.nextSessionId ∧
      (recordWithFault db uid tn sb sec dt now).2.attendance.filter
        (fun a => a.session_id == db.nextSessionId) = [] := by
  refine ⟨{ id := db.nextSessionId, teacher_name := tn, subject := sb, sect := sec,
            date := dt, created_at := now, teacher_user_id := uid }, ?_, rfl, ?_⟩
  · simp [recordWithFault, insertSessionRow]
  · simp only [recordWithFault, insertSessionRow]
    rw [List.filter_eq_nil_iff]
    intro a ha
    simp [hfresh a ha]

/-- C1 witness: faulting a submission against the empty store leaves the
session row with id 1 orphaned. -/
theorem C1_fault_leaves_orphan_session_witness :
    ∃ s ∈ (recordWithFault db0 1 "T" "Math" "A" "2024-01-01" "t0").2.sessions,
      s.id = db0.nextSessionId ∧
      (recordWithFault db0 1 "T" "Math" "A" "2024-01-01" "t0").2.attendance.filter
        (fun a => a.session_id == db0.nextSessionId) = [] :=
  C1_fault_leaves_orphan_session db0 1 "T" "Math" "A" "2024-01-01" "t0"
    (by intro a ha; simp [db0] at ha)

/-- C2: the student resolver is find-or-create on `(roll_number, section)`:
if a matching row exists, its (first match's) id is returned and the store is
unchanged (the name is not updated); otherwise exactly one row with the given
name and keys is inserted and its id returned; and a second call with the same
pair returns the same id, changes nothing further, so the two calls create
exactly one row when none existed and zero when one did. -/
theorem C2_resolver_find_or_create (db : DB) (roll sec nm nm2 : String) :
    (∀ st, findStudent db roll sec = some st →
        resolveStudent db roll sec nm = (st.id, db)) ∧
    (findStudent db roll sec = none →
        resolveStudent db roll sec nm =
          (db.nextStudentId,
           { db with
              students := db.students ++
                [{ id := db.nextStudentId, name := nm, roll_number := roll, sect := sec }],
              nextStudentId := db.nextStudentId + 1 })) ∧
    (resolveStudent (resolveStudent db roll sec nm).2 roll sec nm2 =
        ((resolveStudent db roll sec nm).1, (resolveStudent db roll sec nm).2)) ∧
    ((resolveStudent db roll sec nm).2.students.length =
        db.students.length + if (findStudent db roll sec).isSome then 0 else 1) := by
  refine ⟨?_, ?_, ?_, ?_⟩
  · intro st h
    unfold resolveStudent
    rw [h]
  · intro h
    unfold resolveStudent
    rw [h]
  · cases h : findStudent db roll sec with
    | some st => simp [resolveStudent, h]
    | none =>
      have hr1 : resolveStudent db roll sec nm =
          (db.nextStudentId,
           { db with
              students := db.students ++
                [{ id := db.nextStudentId, name := nm, roll_number := roll, sect := sec }],
              nextStudentId := db.nextStudentId + 1 }) := by
        unfold resolveStudent
        rw [h]
      rw [hr1]
      have h2 : findStudent
          { db with
              students := db.students ++
                [{ id := db.nextStudentId, name := nm, roll_number := roll, sect := sec }],
              nextStudentId := db.nextStudentId + 1 } roll sec =
          some { id := db.nextStudentId, name := nm, roll_number := roll, sect := sec } := by
        unfold findStudent at h ⊢
        simp [List.find?_append, h]
      unfold resolveStudent
      rw [h2]
  · cases h : findStudent db roll sec with
    | some st => simp [resolveStudent, h]
    | none => simp [resolveStudent, h]

/-- C2 witness: resolving roll "5", section "A" twice against the empty store
yields id 1 both times and a single created row. -/
theorem C2_resolver_find_or_create_witness :
    resolveStudent db0 "5" "A" "Ann" =
      (1, { db0 with
              students := [{ id := 1, name := "Ann", roll_number := "5", sect := "A" }],
              nextStudentId := 2 }) ∧
    resolveStudent (resolveStudent db0 "5" "A" "Ann").2 "5" "A" "Annie" =
      ((resolveStudent db0 "5" "A" "Ann").1, (resolveStudent db0 "5" "A" "Ann").2) ∧
    (resolveStudent db0 "5" "A" "Ann").2.students.length = db0.students.length + 1 := by
  have h := C2_resolver_find_or_create db0 "5" "A" "Ann" "Annie"
  have hnone : findStudent db0 "5" "A" = none := by simp [findStudent, db0]
  refine ⟨?_, h.2.2.1, ?_⟩
  · have := h.2.1 hnone
    simpa [db0] using this
  · have := h.2.2.2
    rw [hnone] at this
    simpa using this

/-- C4 counterexample: the current POST /api/attendance
(src/server.js lines 448–471) performs no validation — a submission whose
`teacherName` is the empty string is not rejected: it answers ok and persists
a session row with an empty teacher name, contradicting the claim that such a
submission is rejected before any write. -/
theorem C4_counterexample :
    (recordCurrent db0 1 "" "Math" "A" "2024-01-01" [] "t0").1 = ApiResult.ok 1 ∧
    (recordCurrent db0 1 "" "Math" "A" "2024-01-01" [] "t0").2.sessions =
      [{ id := 1, teacher_name := "", subject := "Math", sect := "A",
         date := "2024-01-01", created_at := "t0", teacher_user_id := 1 }] := by
  constructor <;> rfl

/-- C4 amended: in the legacy handler (src/unnamed/part_001 lines 230–238) a
submission with any of teacherName/subject/section/date missing or empty is
rejected with a validation error (HTTP 400) before any write: the store is
returned unchanged. -/
theorem C4_legacy_validation_rejects_before_write (db : DB) (uid : Nat)
    (tn sb sec dt : Option String) (students : Option (List Entry)) (now : String)
    (h : falsy tn = true ∨ falsy sb = true ∨ falsy sec = true ∨ falsy dt = true) :
    record db uid tn sb sec dt students now = (.badRequest, db) := by
  unfold record
  rcases h with h | h | h | h <;> simp [h]

/-- C4 witness: an empty `teacherName` is rejected by the legacy handler with
no write. -/
theorem C4_legacy_validation_rejects_before_write_witness :
    record db0 1 (some "") (some "Math") (some "A") (some "2024-01-01") (some []) "t0" =
      (.badRequest, db0) :=
  C4_legacy_validation_rejects_before_write db0 1 (some "") (some "Math") (some "A")
    (some "2024-01-01") (some []) "t0" (Or.inl (by rfl))

/-- C5 counterexample: an entry with `rollNumber` and `status` both present
but no `name` is NOT recorded — the legacy loop guard
(src/unnamed/part_001 line 280) also skips on missing name, so the submission
succeeds with the session created and zero attendance rows (and no student
created either), contradicting the claim that entries with no name are
recorded. -/
theorem C5_counterexample :
    (record db0 1 (some "T") (some "Math") (some "A") (some "2024-01-01")
        (some [{ rollNumber := some "5", status := some "present" }]) "t0").1 =
      ApiResult.ok 1 ∧
    (record db0 1 (some "T") (some "Math") (some "A") (some "2024-01-01")
        (some [{ rollNumber := some "5", status := some "present" }]) "t0").2.attendance = [] ∧
    (record db0 1 (some "T") (some "Math") (some "A") (some "2024-01-01")
        (some [{ rollNumber := some "5", status := some "present" }]) "t0").2.students = [] := by
  refine ⟨rfl, rfl, rfl⟩

/-- C5 amended: during legacy attendance recording, exactly the entries with
`name`, `rollNumber` and `status` all present and non-empty produce attendance
rows — every other entry is silently skipped; the session row is created
regardless, every produced row carries the new session id and the shared
timestamp, and a list whose only entry lacks `status` (or `name`) yields the
session with zero attendance rows. -/
theorem C5_skip_policy (db : DB) (uid : Nat) (tn sb sec dt : String) (es : List Entry)
    (now : String) (htn : tn ≠ "") (hsb : sb ≠ "") (hsec : sec ≠ "") (hdt : dt ≠ "")
    (hfresh : ∀ a ∈ db.attendance, a.session_id ≠ db.nextSessionId) :
    ∃ rows : List AttendanceRow,
      (record db uid (some tn) (some sb) (some sec) (some dt) (some es) now).1 =
        .ok db.nextSessionId ∧
      (record db uid (some tn) (some sb) (some sec) (some dt) (some es) now).2.attendance =
        db.attendance ++ rows ∧
      rows.length = es.countP entryValid ∧
      (∀ r ∈ rows, r.session_id = db.nextSessionId ∧ r.marked_at = now) ∧
      ((record db uid (some tn) (some sb) (some sec) (some dt) (some es) now).2.attendance.filter
          (fun a => a.session_id == db.nextSessionId)).length = es.countP entryValid ∧
      (record db uid (some tn) (some sb) (some sec) (some dt) (some es) now).2.sessions =
        db.sessions ++
          [{ id := db.nextSessionId, teacher_name := tn, subject := sb, sect := sec,
             date := dt, created_at := now, teacher_user_id := uid }] := by
  have h1 : falsy (some tn) = false := beq_eq_false_iff_ne.mpr htn
  have h2 : falsy (some sb) = false := beq_eq_false_iff_ne.mpr hsb
  have h3 : falsy (some sec) = false := beq_eq_false_iff_ne.mpr hsec
  have h4 : falsy (some dt) = false := beq_eq_false_iff_ne.mpr hdt
  have hrec : record db uid (some tn) (some sb) (some sec) (some dt) (some es) now =
      (.ok db.nextSessionId,
       es.foldl (recordEntry db.nextSessionId sec now)
         (insertSessionRow db tn sb sec dt now uid).2) := by
    unfold record
    rw [if_neg (by simp [h1, h2, h3, h4])]
    rfl
  obtain ⟨rows, ha, hl, hm, hs⟩ := foldl_recordEntry_spec db.nextSessionId sec now es
    (insertSessionRow db tn sb sec dt now uid).2
  have ha' : (es.foldl (recordEntry db.nextSessionId sec now)
      (insertSessionRow db tn sb sec dt now uid).2).attendance = db.attendance ++ rows := by
    simpa [insertSessionRow] using ha
  refine ⟨rows, ?_, ?_, hl, hm, ?_, ?_⟩
  · rw [hrec]
  · rw [hrec]
    exact ha'
  · rw [hrec]
    show ((es.foldl (recordEntry db.nextSessionId sec now)
        (insertSessionRow db tn sb sec dt now uid).2).attendance.filter
          (fun a => a.session_id == db.nextSessionId)).length = es.countP entryValid
    rw [ha', List.filter_append]
    have hleft : db.attendance.filter (fun a => a.session_id == db.nextSessionId) = [] := by
      rw [List.filter_eq_nil_iff]
      intro a hha
      simp [hfresh a hha]
    have hright : rows.filter (fun a => a.session_id == db.nextSessionId) = rows := by
      rw [List.filter_eq_self]
      intro a hha
      simp [(hm a hha).1]
    rw [hleft, hright]
    simpa using hl
  · rw [hrec]
    simpa [insertSessionRow] using hs

/-- C5 witness: two valid entries and one entry with an empty status against
the empty store create the session and exactly two attendance rows. -/
theorem C5_skip_policy_witness :
    ∃ rows : List AttendanceRow,
      (record db0 1 (some "T") (some "Math") (some "A") (some "2024-01-01")
          (some [{ name := some "Ann", rollNumber := some "1", status := some "present" },
                 { name := some "Ben", rollNumber := some "2", status := some "" },
                 { name := some "Cal", rollNumber := some "3", status := some "late" }])
          "t0").1 = .ok db0.nextSessionId ∧
      (record db0 1 (some "T") (some "Math") (some "A") (some "2024-01-01")
          (some [{ name := some "Ann", rollNumber := some "1", status := some "present" },
                 { name := some "Ben", rollNumber := some "2", status := some "" },
                 { name := some "Cal", rollNumber := some "3", status := some "late" }])
          "t0").2.attendance = db0.attendance ++ rows ∧
      rows.length = 2 := by
  obtain ⟨rows, hr1, hr2, hr3, hr4, hr5, hr6⟩ :=
    C5_skip_policy db0 1 "T" "Math" "A" "2024-01-01"
      [{ name := some "Ann", rollNumber := some "1", status := some "present" },
       { name := some "Ben", rollNumber := some "2", status := some "" },
       { name := some "Cal", rollNumber := some "3", status := some "late" }] "t0"
      (by decide) (by decide) (by decide) (by decide)
      (by intro a ha; simp [db0] at ha)
  exact ⟨rows, hr1, hr2, by rw [hr3]; rfl⟩

/-- C3 counterexample: the current metrics route performs no student-scoping
check — a caller authenticated as the student with roll "7" asking for roll
"9"'s metrics receives the computed metrics (100% here), not a forbidden
outcome, contradicting the claim for the metrics operation. -/
theorem C3_counterexample :
    uStudent7.role = "student" ∧ uStudent7.roll_number ≠ some "9" ∧
    metricsCurrent dbC3 uStudent7 "9" =
      .ok { overall_percentage := 100, last_7_days_score := 100, risk_subject_count := 0 } := by
  refine ⟨rfl, by decide, ?_⟩
  show ApiResult.ok _ = _
  norm_num [dbC3]

/-- C3 amended: the history and profile operations do enforce student scoping:
when the caller is a student whose roll number differs from the target, they
answer forbidden (target exists) or not-found (target absent) — in either case
no student data is returned; the current metrics route performs no such check
(see the counterexample). -/
theorem C3_scoping_profile_history (db : DB) (u : AuthUser) (roll : String)
    (hrole : u.role = "student") (hmm : u.roll_number ≠ some roll) :
    ((db.students.find? (fun s => s.roll_number == roll)).isSome →
        profileCurrent db u roll = .forbidden ∧ historyLegacy db u roll = .forbidden) ∧
    (db.students.find? (fun s => s.roll_number == roll) = none →
        profileCurrent db u roll = .notFound ∧ historyLegacy db u roll = .notFound) := by
  constructor
  · intro hex
    obtain ⟨st, hst⟩ := Option.isSome_iff_exists.mp hex
    have hcond : (u.role == "student" && u.roll_number != some roll) = true := by
      simp [hrole, bne_iff_ne.mpr hmm]
    exact ⟨by simp [profileCurrent, hst, hcond], by simp [historyLegacy, hst, hcond]⟩
  · intro hnone
    exact ⟨by simp [profileCurrent, hnone], by simp [historyLegacy, hnone]⟩

/-- C3 witness: student roll "7" asking for existing roll "9" gets forbidden
from profile and history. -/
theorem C3_scoping_profile_history_witness :
    profileCurrent dbC3 uStudent7 "9" = .forbidden ∧
    historyLegacy dbC3 uStudent7 "9" = .forbidden :=
  (C3_scoping_profile_history dbC3 uStudent7 "9" rfl (by decide)).1 (by decide)

/-- C6: for every request whose roll number resolves to a student, the current
metrics route returns `overall_percentage = attended/total*100` where
`attended` counts that student's rows with status present or late, `total`
counts all of that student's rows, and the result is 0 when `total` is 0. -/
theorem C6_metrics_percentage (db : DB) (u : AuthUser) (roll : String) (st : Student)
    (hfind : db.students.find? (fun s => s.roll_number == roll) = some st) :
    ∃ m : Metrics, metricsCurrent db u roll = .ok m ∧
      m.overall_percentage =
        (if db.attendance.countP (fun a => a.student_id == st.id) = 0 then (0 : ℚ)
         else (db.attendance.countP (fun a => a.student_id == st.id &&
                 (a.status == "present" || a.status == "late")) : ℚ) /
              (db.attendance.countP (fun a => a.student_id == st.id) : ℚ) * 100) := by
  unfold metricsCurrent
  rw [hfind]
  refine ⟨_, rfl, ?_⟩
  simp only [List.countP_eq_length_filter]
  rcases Nat.eq_zero_or_pos (db.attendance.filter (fun a => a.student_id == st.id)).length
    with h | h
  · rw [h]
    simp
  · rw [if_pos h, if_neg (by omega)]

/-- C6 witness: 3 present + 1 absent gives exactly 75; zero rows gives 0. -/
theorem C6_metrics_percentage_witness :
    (∃ m : Metrics, metricsCurrent dbC6 uTeacher "7" = .ok m ∧ m.overall_percentage = 75) ∧
    (∃ m : Metrics, metricsCurrent dbC6 uTeacher "8" = .ok m ∧ m.overall_percentage = 0) := by
  constructor
  · obtain ⟨m, hm, hp⟩ := C6_metrics_percentage dbC6 uTeacher "7"
      { id := 1, name := "Asha", roll_number := "7", sect := "A" } (by rfl)
    refine ⟨m, hm, ?_⟩
    rw [hp]
    have h4 : List.countP (fun a => a.student_id ==
        ({ id := 1, name := "Asha", roll_number := "7", sect := "A" } : Student).id)
        dbC6.attendance = 4 := by rfl
    have h3 : List.countP (fun a => a.student_id ==
          ({ id := 1, name := "Asha", roll_number := "7", sect := "A" } : Student).id &&
        (a.status == "present" || a.status == "late")) dbC6.attendance = 3 := by rfl
    rw [h4, h3]
    norm_num
  · obtain ⟨m, hm, hp⟩ := C6_metrics_percentage dbC6 uTeacher "8"
      { id := 2, name := "Zoe", roll_number := "8", sect := "A" } (by rfl)
    refine ⟨m, hm, ?_⟩
    rw [hp]
    have h0 : List.countP (fun a => a.student_id ==
        ({ id := 2, name := "Zoe", roll_number := "8", sect := "A" } : Student).id)
        dbC6.attendance = 0 := by rfl
    rw [h0]
    norm_num

/-- C7 counterexample: the current GET /api/sessions/:id
(src/server.js lines 478–487) does not return a not-found outcome for a
nonexistent session id — it answers 200 with an absent session and the (empty)
record list, contradicting the claim. -/
theorem C7_counterexample :
    db0.sessions = [] ∧ sessionDetailCurrent db0 5 = (none, []) := ⟨rfl, rfl⟩

/-- C7 amended: the legacy session-detail handler behaves as claimed: it
answers not-found when the session id does not exist, and otherwise returns
the session together with its joined attendance rows ordered by roll number
ascending (a sorted permutation of the join). -/
theorem C7_detail_guarded_and_sorted (db : DB) (sid : Nat) :
    (db.sessions.find? (fun s => s.id == sid) = none →
        sessionDetailLegacy db sid = .notFound) ∧
    (∀ s, db.sessions.find? (fun s' => s'.id == sid) = some s →
        ∃ l, sessionDetailLegacy db sid = .ok (s, l) ∧
          l.Perm (detailRows db sid) ∧ List.Sorted rollLE l) := by
  constructor
  · intro h
    simp [sessionDetailLegacy, h]
  · intro s hs
    exact ⟨_, by simp [sessionDetailLegacy, hs],
      List.perm_insertionSort rollLE (detailRows db sid),
      List.sorted_insertionSort rollLE (detailRows db sid)⟩

/-- C7 witness: a missing id yields not-found; an existing session yields its
rows sorted by roll number. -/
theorem C7_detail_guarded_and_sorted_witness :
    sessionDetailLegacy dbC7 99 = .notFound ∧
    ∃ l, sessionDetailLegacy dbC7 1 =
        .ok ({ id := 1, teacher_name := "T", subject := "Math", sect := "A",
               date := "2024-01-01", created_at := "t0", teacher_user_id := 1 }, l) ∧
      l.Perm (detailRows dbC7 1) ∧ List.Sorted rollLE l :=
  ⟨(C7_detail_guarded_and_sorted dbC7 99).1 (by rfl),
   (C7_detail_guarded_and_sorted dbC7 1).2 _ (by rfl)⟩

/-- C8: the legacy history operation returns the student's joined attendance
rows as a permutation of the join, sorted by session date ascending and, among
equal dates, by session creation time ascending; consequently any entry with
the smaller date precedes any entry with the larger date, regardless of
insertion order. -/
theorem C8_history_sorted (db : DB) (u : AuthUser) (roll : String) (st : Student)
    (hfind : db.students.find? (fun s => s.roll_number == roll) = some st)
    (hrole : (u.role == "student" && u.roll_number != some roll) = false) :
    ∃ l, historyLegacy db u roll = .ok (st, l) ∧
      l.Perm (historyRows db st.id) ∧
      List.Sorted histKeyLE l ∧
      (∀ d1 d2 : String, d1 < d2 →
        ∀ i j, ∀ hi : i < l.length, ∀ hj : j < l.length,
          (l.get ⟨i, hi⟩).date = d1 → (l.get ⟨j, hj⟩).date = d2 → i < j) := by
  have hsorted := List.sorted_insertionSort histKeyLE (historyRows db st.id)
  refine ⟨_, by simp [historyLegacy, hfind, hrole], List.perm_insertionSort _ _, hsorted, ?_⟩
  intro d1 d2 hd i j hi hj h1 h2
  by_contra hij
  push_neg at hij
  rcases Nat.lt_or_ge j i with hlt | hge
  · have := hsorted.rel_get_of_lt (a := ⟨j, hj⟩) (b := ⟨i, hi⟩) hlt
    rw [histKeyLE_iff] at this
    rw [h1, h2] at this
    rcases this with hcon | ⟨hcon, _⟩
    · exact absurd hd (lt_asymm hcon)
    · rw [hcon] at hd
      exact lt_irrefl d1 hd
  · have hji : j = i := le_antisymm (by omega) hge
    subst hji
    rw [h1] at h2
    rw [h2] at hd
    exact lt_irrefl d2 hd

/-- C8 witness: with the 2024-01-03 session inserted before the 2024-01-01
one, every history entry dated 01-01 still precedes every entry dated
01-03. -/
theorem C8_history_sorted_witness :
    ∃ l, historyLegacy dbC8 uTeacher "7" =
        .ok ({ id := 1, name := "S", roll_number := "7", sect := "A" }, l) ∧
      ∀ i j, ∀ hi : i < l.length, ∀ hj : j < l.length,
        (l.get ⟨i, hi⟩).date = "2024-01-01" → (l.get ⟨j, hj⟩).date = "2024-01-03" → i < j := by
  obtain ⟨l, h1, _, _, h4⟩ := C8_history_sorted dbC8 uTeacher "7"
    { id := 1, name := "S", roll_number := "7", sect := "A" } (by rfl) (by rfl)
  exact ⟨l, h1, h4 "2024-01-01" "2024-01-03" (by rw [String.lt_iff_toList_lt]; decide)⟩

/-- The student-delete route changes only the three listed tables, in the
stated way, regardless of whether the student exists. -/
theorem deleteStudentRoute_proj (db : DB) (stid : Nat) :
    (deleteStudentRoute db stid).students = db.students.filter (fun s => !(s.id == stid)) ∧
    (deleteStudentRoute db stid).attendance =
      db.attendance.filter (fun a => !(a.student_id == stid)) ∧
    (deleteStudentRoute db stid).sessions = db.sessions := by
  unfold deleteStudentRoute
  cases db.students.find? (fun s => s.id == stid) <;> simp

/-- C9: referential integrity is preserved by both deletes, and after a delete
no attendance row references the deleted session or student — in particular
the session-detail join of a deleted session and the history join of a deleted
student are empty, so subsequent queries return none of the deleted rows. -/
theorem C9_cascade_preserves_integrity (db : DB) (sid stid : Nat) (h : refIntact db) :
    refIntact (deleteSessionRow db sid) ∧
    refIntact (deleteStudentRoute db stid) ∧
    (∀ a ∈ (deleteSessionRow db sid).attendance, a.session_id ≠ sid) ∧
    (∀ a ∈ (deleteStudentRoute db stid).attendance, a.student_id ≠ stid) ∧
    detailRows (deleteSessionRow db sid) sid = [] ∧
    historyRows (deleteStudentRoute db stid) stid = [] := by
  obtain ⟨hst, hat, hse⟩ := deleteStudentRoute_proj db stid
  have hmemS : ∀ a ∈ (deleteSessionRow db sid).attendance,
      a ∈ db.attendance ∧ a.session_id ≠ sid := by
    intro a ha
    have := List.mem_filter.mp ha
    exact ⟨this.1, by simpa using this.2⟩
  have hmemT : ∀ a ∈ (deleteStudentRoute db stid).attendance,
      a ∈ db.attendance ∧ a.student_id ≠ stid := by
    intro a ha
    rw [hat] at ha
    have := List.mem_filter.mp ha
    exact ⟨this.1, by simpa using this.2⟩
  refine ⟨?_, ?_, fun a ha => (hmemS a ha).2, fun a ha => (hmemT a ha).2, ?_, ?_⟩
  · intro a ha
    obtain ⟨hmem, hne⟩ := hmemS a ha
    obtain ⟨⟨s, hs, hsid⟩, ⟨st, hstm, hstid⟩⟩ := h a hmem
    refine ⟨⟨s, ?_, hsid⟩, ⟨st, hstm, hstid⟩⟩
    exact List.mem_filter.mpr ⟨hs, by simp [hsid ▸ hne]⟩
  · intro a ha
    obtain ⟨hmem, hne⟩ := hmemT a ha
    obtain ⟨⟨s, hs, hsid⟩, ⟨st, hstm, hstid⟩⟩ := h a hmem
    refine ⟨⟨s, by rw [hse]; exact hs, hsid⟩, ⟨st, ?_, hstid⟩⟩
    rw [hst]
    exact List.mem_filter.mpr ⟨hstm, by simp [hstid ▸ hne]⟩
  · unfold detailRows
    rw [List.filterMap_eq_nil_iff]
    intro a ha
    rw [if_neg (by simpa using (hmemS a ha).2)]
  · unfold historyRows
    rw [List.filterMap_eq_nil_iff]
    intro a ha
    rw [if_neg (by simpa using (hmemT a ha).2)]

/-- C9 witness: deleting session 1 (or student 1) of a one-row store keeps
integrity and leaves no attendance row referencing it. -/
theorem C9_cascade_preserves_integrity_witness :
    refIntact (deleteSessionRow dbC9 1) ∧
    refIntact (deleteStudentRoute dbC9 1) ∧
    (∀ a ∈ (deleteSessionRow dbC9 1).attendance, a.session_id ≠ 1) ∧
    (∀ a ∈ (deleteStudentRoute dbC9 1).attendance, a.student_id ≠ 1) ∧
    detailRows (deleteSessionRow dbC9 1) 1 = [] ∧
    historyRows (deleteStudentRoute dbC9 1) 1 = [] :=
  C9_cascade_preserves_integrity dbC9 1 1 (by decide)

/-- Dropping list elements that satisfy `p` does not change a `filter` whose
predicate rejects them all. -/
theorem filter_of_filter_not {α : Type} (p q : α → Bool) (l : List α)
    (h : ∀ a ∈ l, p a = true → q a = false) :
    (l.filter (fun a => !(p a))).filter q = l.filter q := by
  induction l with
  | nil => rfl
  | cons a l ih =>
    have ih' := ih (fun x hx hpx => h x (List.mem_cons_of_mem a hx) hpx)
    cases hp : p a with
    | true => simp [List.filter_cons, hp, h a (List.mem_cons_self a l) hp, ih']
    | false =>
      cases hq : q a with
      | true => simp [List.filter_cons, hp, hq, ih']
      | false => simp [List.filter_cons, hp, hq, ih']

/-- Dropping list elements on which `f` returns `none` does not change a
`filterMap f`. -/
theorem filterMap_of_filter_not {α β : Type} (p : α → Bool) (f : α → Option β) (l : List α)
    (h : ∀ a ∈ l, p a = true → f a = none) :
    (l.filter (fun a => !(p a))).filterMap f = l.filterMap f := by
  induction l with
  | nil => rfl
  | cons a l ih =>
    have ih' := ih (fun x hx hpx => h x (List.mem_cons_of_mem a hx) hpx)
    cases hp : p a with
    | true => simp [List.filter_cons, hp, h a (List.mem_cons_self a l) hp, ih']
    | false => simp [List.filter_cons, List.filterMap_cons, hp, ih']

/-- C10: the profile, metrics and history operations resolve the target by
roll number alone — the first matching student row, ignoring `section`.  With
a second student `s2` carrying the same roll number in another section (hence
a different row id), profile returns only the first match `s1`, and removing
all of `s2`'s attendance rows changes neither the metrics nor the history
response: `s2`'s records are never included. -/
theorem C10_lookup_ignores_section (db : DB) (u : AuthUser) (roll : String) (s1 s2 : Student)
    (hfind : db.students.find? (fun s => s.roll_number == roll) = some s1)
    (_hs2 : s2 ∈ db.students) (_hroll2 : s2.roll_number = roll) (hne : s2.id ≠ s1.id)
    (hrole : u.role = "teacher") :
    profileCurrent db u roll = .ok s1 ∧
    metricsCurrent db u roll = metricsCurrent (removeAttendanceOf db s2.id) u roll ∧
    historyLegacy db u roll = historyLegacy (removeAttendanceOf db s2.id) u roll := by
  have hfind2 : (removeAttendanceOf db s2.id).students.find?
      (fun s => s.roll_number == roll) = some s1 := hfind
  have hattP : (removeAttendanceOf db s2.id).attendance =
      db.attendance.filter (fun a => !(a.student_id == s2.id)) := rfl
  have hcond : (u.role == "student" && u.roll_number != some roll) = false := by
    simp [hrole]
  refine ⟨?_, ?_, ?_⟩
  · simp [profileCurrent, hfind, hcond]
  · have hT : (removeAttendanceOf db s2.id).attendance.filter
        (fun a => a.student_id == s1.id) =
        db.attendance.filter (fun a => a.student_id == s1.id) := by
      rw [hattP]
      exact filter_of_filter_not _ _ _ (fun a _ hp =>
        beq_eq_false_iff_ne.mpr (by rw [eq_of_beq hp]; exact hne))
    have hA : (removeAttendanceOf db s2.id).attendance.filter
        (fun a => a.student_id == s1.id && (a.status == "present" || a.status == "late")) =
        db.attendance.filter
          (fun a => a.student_id == s1.id && (a.status == "present" || a.status == "late")) := by
      rw [hattP]
      exact filter_of_filter_not _ _ _ (fun a _ hp => by
        rw [eq_of_beq hp]
        simp [beq_eq_false_iff_ne.mpr hne])
    simp only [metricsCurrent, hfind, hfind2, hT, hA]
  · have hrows : historyRows (removeAttendanceOf db s2.id) s1.id = historyRows db s1.id := by
      unfold historyRows
      rw [hattP]
      exact filterMap_of_filter_not _ _ _ (fun a _ hp => by
        rw [if_neg]
        simp [eq_of_beq hp, beq_eq_false_iff_ne.mpr hne])
    simp only [historyLegacy, hfind, hfind2, hrows]

/-- C10 witness: two students share roll "7" in sections "A" and "B"; all
three reads resolve to the section-"A" row and ignore the other student's
attendance. -/
theorem C10_lookup_ignores_section_witness :
    profileCurrent dbC10 uTeacher "7" =
      .ok { id := 1, name := "Ann", roll_number := "7", sect := "A" } ∧
    metricsCurrent dbC10 uTeacher "7" = metricsCurrent (removeAttendanceOf dbC10 2) uTeacher "7" ∧
    historyLegacy dbC10 uTeacher "7" = historyLegacy (removeAttendanceOf dbC10 2) uTeacher "7" :=
  C10_lookup_ignores_section dbC10 uTeacher "7"
    { id := 1, name := "Ann", roll_number := "7", sect := "A" }
    { id := 2, name := "Ben", roll_number := "7", sect := "B" }
    (by rfl) (by decide) rfl (by decide) rfl

end SmartTrack
